import Mathlib

/-!
Shallow embedding of the disgo gateway session layer, guild-availability
cache and member-chunking manager, checked against the natural-language
specification.  Definitions are translated from:

  * src/gateway/gateway_impl.go       (session state machine)
  * src/core/cache_guild.go           (availability tracker)
  * src/bot/member_chunking_manager.go (chunk correlator)

The Go code is concurrent; the embedding is the sequential semantics of
each operation (mutexes become no-ops, goroutine launches are recorded as
state/flags).  External effects (the websocket dial, the rate limiter's
wait outcome) enter as explicit parameters; time.Now() enters as a `now`
parameter in milliseconds.
-/

namespace Disgo

/-- Session lifecycle status.  Constructors correspond to the
`StatusUnconnected`, `StatusConnecting`, `StatusWaitingForHello`,
`StatusIdentifying`, `StatusResuming`, `StatusWaitingForReady`,
`StatusReady` and `StatusDisconnected` constants referenced by
gateway_impl.go (spec 4.1 lists the same states). -/
inductive Status where
  | unconnected
  | connecting
  | waitingForHello
  | identifying
  | resuming
  | waitingForReady
  | ready
  | disconnected
deriving DecidableEq, Repr

/-- The parts of gateway.Config that gateway_impl.go mutates or reads in
the embedded operations: `SessionID`, `LastSequenceReceived` and
`AutoReconnect`.  Sequence numbers are modelled as Nat (Go `int`,
non-negative protocol sequence). -/
structure Config where
  sessionID : Option String
  lastSequenceReceived : Option Nat
  autoReconnect : Bool
deriving DecidableEq, Repr

/-- The mutable state of `gatewayImpl` (gateway_impl.go lines 38-52).
`conn` is the websocket handle, abstracted to an identifier; `none`
models the Go nil pointer.  `heartbeatTicker` holds the ticker's period
when a heartbeat loop is running.  Timestamps are Nats (ms). -/
structure GatewayImpl where
  config : Config
  conn : Option Nat
  status : Status
  heartbeatTicker : Option Nat
  heartbeatInterval : Nat
  lastHeartbeatSent : Nat
  lastHeartbeatReceived : Nat
deriving DecidableEq, Repr

/-- Websocket close code constants used by gateway_impl.go
(gorilla/websocket): CloseNormalClosure, CloseGoingAway,
CloseServiceRestart. -/
def closeNormalClosure : Nat := 1000

def closeGoingAway : Nat := 1001

def closeServiceRestart : Nat := 1012

/-- `New` (gateway_impl.go lines 25-36): fresh gateway with
`status: StatusUnconnected` and nil connection/ticker. -/
def New (cfg : Config) : GatewayImpl :=
  { config := cfg
    conn := none
    status := .unconnected
    heartbeatTicker := none
    heartbeatInterval := 0
    lastHeartbeatSent := 0
    lastHeartbeatReceived := 0 }

/-- `CloseWithCode` (gateway_impl.go lines 143-168): stops the heartbeat
ticker; if a connection exists it is closed and dropped, and the resume
data (`SessionID`, `LastSequenceReceived`) is cleared exactly when the
close code is CloseNormalClosure or CloseGoingAway.  The status field is
not touched.  (RateLimiter.Close and the close-frame write are external
effects.) -/
def CloseWithCode (g : GatewayImpl) (code : Nat) : GatewayImpl :=
  let g1 := { g with heartbeatTicker := none }
  match g1.conn with
  | none => g1
  | some _ =>
    let g2 := { g1 with conn := none }
    if code = closeNormalClosure ∨ code = closeGoingAway then
      { g2 with config :=
          { g2.config with sessionID := none, lastSequenceReceived := none } }
    else g2

/-- `Close` (gateway_impl.go lines 139-141): CloseWithCode with
CloseNormalClosure. -/
def Close (g : GatewayImpl) : GatewayImpl :=
  CloseWithCode g closeNormalClosure

/-- Errors returned by `Open`:
`discord.ErrGatewayAlreadyConnected` and the dial error. -/
inductive OpenError where
  | errGatewayAlreadyConnected
  | errDial
deriving DecidableEq, Repr

/-- `Open` (gateway_impl.go lines 92-137).  `dialResult` is the outcome
of `Dialer.DialContext`: `some c` a fresh connection handle, `none` a
dial error.  If a connection already exists it returns
ErrGatewayAlreadyConnected before touching anything.  Otherwise it sets
`status := StatusConnecting` and `lastHeartbeatSent := now`, dials, and
on failure calls `Close` (which, with `conn` still nil, only stops the
ticker) and returns the error; on success it stores the connection,
resets the rate limiter (external) and sets
`status := StatusWaitingForHello`. -/
def Open (g : GatewayImpl) (dialResult : Option Nat) (now : Nat) :
    GatewayImpl × Option OpenError :=
  match g.conn with
  | some _ => (g, some .errGatewayAlreadyConnected)
  | none =>
    let g1 := { g with status := .connecting, lastHeartbeatSent := now }
    match dialResult with
    | none => (Close g1, some .errDial)
    | some c => ({ g1 with conn := some c, status := .waitingForHello }, none)

/-- Outcome of `send` (gateway_impl.go lines 187-201): the not-connected
error when `conn` is nil, a rate-limiter error when `RateLimiter.Wait`
fails, otherwise the frame is written to the socket. -/
inductive SendResult where
  | written
  | errShardNotConnected
  | errRateLimiter
deriving DecidableEq, Repr

/-- `send` (gateway_impl.go lines 187-201): returns
`discord.ErrShardNotConnected` iff `conn` is nil; otherwise waits on the
rate limiter (outcome passed in as `rateLimiterOk`) and writes the
frame.  The session status is not consulted. -/
def send (g : GatewayImpl) (rateLimiterOk : Bool) : SendResult :=
  match g.conn with
  | none => .errShardNotConnected
  | some _ => if rateLimiterOk then .written else .errRateLimiter

/-- `sendHeartbeat` (gateway_impl.go lines 249-261): sends a heartbeat
frame; if the send fails with an error other than ErrShardNotConnected,
it closes with CloseServiceRestart and launches an async reconnect (the
Bool result records that this forced close-and-reconnect fired) and
returns without updating `lastHeartbeatSent`; otherwise it sets
`lastHeartbeatSent := now`.  No field of the heartbeat-ack state is
read. -/
def sendHeartbeat (g : GatewayImpl) (rateLimiterOk : Bool) (now : Nat) :
    GatewayImpl × Bool :=
  match send g rateLimiterOk with
  | .errRateLimiter => (CloseWithCode g closeServiceRestart, true)
  | _ => ({ g with lastHeartbeatSent := now }, false)

/-- The `GatewayOpcodeHeartbeatACK` case of `listen` (gateway_impl.go
lines 424-427): records the ack receipt time. -/
def onHeartbeatACK (g : GatewayImpl) (now : Nat) : GatewayImpl :=
  { g with lastHeartbeatReceived := now }

/-- The handshake frame chosen after Hello. -/
inductive HandshakeFrame where
  | identifyFrame
  | resumeFrame
deriving DecidableEq, Repr

/-- `identify` (gateway_impl.go lines 263-287): sets
`status := StatusIdentifying`, sends the Identify command, then sets
`status := StatusWaitingForReady` (also when the send errored — the
error is only logged).  Returns the final state and the frame sent. -/
def identify (g : GatewayImpl) : GatewayImpl × HandshakeFrame :=
  let g1 := { g with status := .identifying }
  ({ g1 with status := .waitingForReady }, .identifyFrame)

/-- `resume` (gateway_impl.go lines 289-301): sets
`status := StatusResuming` and sends the Resume command carrying the
stored session id and sequence; the status is left at Resuming. -/
def resume (g : GatewayImpl) : GatewayImpl × HandshakeFrame :=
  ({ g with status := .resuming }, .resumeFrame)

/-- The `GatewayOpcodeHello` case of `listen` (gateway_impl.go lines
363-373): records the receipt time, starts the heartbeat goroutine,
stores the server interval, then calls `identify` when
`LastSequenceReceived` or `SessionID` is nil and `resume` when both are
present.  (The Go code launches the goroutine one statement before
assigning `heartbeatInterval`; the sequential model stores the
negotiated interval in the ticker.) -/
def onHello (g : GatewayImpl) (interval now : Nat) : GatewayImpl × HandshakeFrame :=
  let g1 := { g with
      lastHeartbeatReceived := now
      heartbeatTicker := some interval
      heartbeatInterval := interval }
  if g1.config.lastSequenceReceived = none ∨ g1.config.sessionID = none then
    identify g1
  else
    resume g1

/-- `heartbeat` (gateway_impl.go lines 239-247) runs
`time.NewTicker(heartbeatInterval)`; a Go ticker created at time `start`
with period `interval` delivers tick `n` at `start + (n+1)*interval`,
the first tick after one full period.  No randomization is applied to
any tick. -/
def heartbeatTickTime (start interval n : Nat) : Nat :=
  start + (n + 1) * interval

/-- Delay from heartbeat-loop start to the first heartbeat send: the
first ticker delivery, one full period after `time.NewTicker`. -/
def firstHeartbeatDelay (interval : Nat) : Nat :=
  heartbeatTickTime 0 interval 0

end Disgo

namespace DisgoCore

/-- The availability-tracking state of `guildCacheImpl`
(cache_guild.go lines 38-48): the cached guilds (modelled by their key
set — values are irrelevant to the tracked claims), the unready
("pending") guild set and the unavailable guild set.  Guild ids
(snowflakes) are Nats. -/
structure GuildCacheImpl where
  guilds : Finset Nat
  unreadyGuilds : Finset Nat
  unavailableGuilds : Finset Nat
deriving DecidableEq

/-- `NewGuildCache` (cache_guild.go lines 51-58): all maps empty. -/
def NewGuildCache : GuildCacheImpl :=
  { guilds := ∅, unreadyGuilds := ∅, unavailableGuilds := ∅ }

/-- `Remove` (cache_guild.go lines 89-93): deletes the guild entry. -/
def Remove (c : GuildCacheImpl) (id : Nat) : GuildCacheImpl :=
  { c with guilds := c.guilds.erase id }

/-- `SetReady` (cache_guild.go lines 134-138): deletes from
`unreadyGuilds` only. -/
def SetReady (c : GuildCacheImpl) (guildID : Nat) : GuildCacheImpl :=
  { c with unreadyGuilds := c.unreadyGuilds.erase guildID }

/-- `SetUnready` (cache_guild.go lines 140-144): inserts into
`unreadyGuilds` only. -/
def SetUnready (c : GuildCacheImpl) (guildID : Nat) : GuildCacheImpl :=
  { c with unreadyGuilds := insert guildID c.unreadyGuilds }

/-- `SetUnavailable` (cache_guild.go lines 165-170): removes the cached
guild entry and inserts into `unavailableGuilds`; `unreadyGuilds` is not
touched. -/
def SetUnavailable (c : GuildCacheImpl) (id : Nat) : GuildCacheImpl :=
  let c1 := Remove c id
  { c1 with unavailableGuilds := insert id c1.unavailableGuilds }

/-- `SetAvailable` (cache_guild.go lines 172-176): deletes from
`unavailableGuilds` only. -/
def SetAvailable (c : GuildCacheImpl) (guildID : Nat) : GuildCacheImpl :=
  { c with unavailableGuilds := c.unavailableGuilds.erase guildID }

/-- One availability-tracker operation (spec 4.4: markReady/markPending/
markUnavailable/markAvailable map to SetReady/SetUnready/SetUnavailable/
SetAvailable; the shard argument of the spec does not reach
cache_guild.go's sets). -/
inductive GuildOp where
  | setReady (id : Nat)
  | setUnready (id : Nat)
  | setUnavailable (id : Nat)
  | setAvailable (id : Nat)
deriving DecidableEq, Repr

/-- Apply one operation. -/
def applyGuildOp (c : GuildCacheImpl) : GuildOp → GuildCacheImpl
  | .setReady id => SetReady c id
  | .setUnready id => SetUnready c id
  | .setUnavailable id => SetUnavailable c id
  | .setAvailable id => SetAvailable c id

/-- State reached from the fresh cache by a sequence of operations. -/
def runGuildOps (ops : List GuildOp) : GuildCacheImpl :=
  ops.foldl applyGuildOp NewGuildCache

end DisgoCore

namespace DisgoBot

/-- `chunkingRequest` (member_chunking_manager.go lines 72-80): the
correlation token (`nonce`), the optional member filter, and the count
of chunks received so far.  Members are modelled by user id (Nat); the
delivery channel itself is external, deliveries are returned as lists. -/
structure ChunkingRequest where
  nonce : String
  memberFilterFunc : Option (Nat → Bool)
  chunks : Nat

/-- `discord.GatewayEventGuildMembersChunk`: the fields
member_chunking_manager.go reads — guild id, member list, chunk count
and nonce. -/
structure GuildMembersChunk where
  guildID : Nat
  members : List Nat
  chunkCount : Nat
  nonce : String

/-- `memberChunkingManagerImpl` (member_chunking_manager.go lines
82-88): the pending-request map, as an association list keyed by
nonce. -/
structure MemberChunkingManagerImpl where
  chunkingRequests : List (String × ChunkingRequest)

/-- Map lookup `m.chunkingRequests[payload.Nonce]`. -/
def lookupRequest (m : MemberChunkingManagerImpl) (nonce : String) :
    Option ChunkingRequest :=
  match m.chunkingRequests.find? (fun p => p.1 == nonce) with
  | none => none
  | some p => some p.2

/-- `cleanupRequest` (member_chunking_manager.go lines 123-128): closes
the member channel (external) and deletes the request's nonce from the
map. -/
def cleanupRequest (m : MemberChunkingManagerImpl) (request : ChunkingRequest) :
    MemberChunkingManagerImpl :=
  { m with chunkingRequests :=
      m.chunkingRequests.filter (fun p => p.1 != request.nonce) }

/-- Replace the entry for `nonce` (models the in-place `request.chunks++`
through the shared pointer). -/
def updateRequest (m : MemberChunkingManagerImpl) (nonce : String)
    (request : ChunkingRequest) : MemberChunkingManagerImpl :=
  { m with chunkingRequests :=
      m.chunkingRequests.map (fun p => if p.1 == nonce then (p.1, request) else p) }

/-- `HandleChunk` (member_chunking_manager.go lines 94-121).  Returns the
new manager state, the list of (guildID, member) cache writes, and the
list of members delivered to the request's channel.  An unknown nonce is
logged and dropped: no writes, no deliveries, state unchanged.  For a
known request every member is written through to the cache; members
passing the optional filter are sent to the channel; on the final chunk
(`chunks == ChunkCount-1`) the request is cleaned up, otherwise its
chunk count is incremented. -/
def HandleChunk (m : MemberChunkingManagerImpl) (payload : GuildMembersChunk) :
    MemberChunkingManagerImpl × List (Nat × Nat) × List Nat :=
  match lookupRequest m payload.nonce with
  | none => (m, [], [])
  | some request =>
    let puts := payload.members.map (fun mem => (payload.guildID, mem))
    let delivered := payload.members.filter (fun mem =>
      match request.memberFilterFunc with
      | none => true
      | some f => f mem)
    if request.chunks = payload.chunkCount - 1 then
      (cleanupRequest m request, puts, delivered)
    else
      (updateRequest m payload.nonce { request with chunks := request.chunks + 1 },
        puts, delivered)

end DisgoBot

namespace Disgo

/-- Fixture: a config holding a resumable session (token and sequence
present). -/
def sampleConfig : Config :=
  { sessionID := some "s", lastSequenceReceived := some 42, autoReconnect := true }

/-- Fixture: a live gateway in StatusReady with an open connection. -/
def sampleGateway : GatewayImpl :=
  { config := sampleConfig
    conn := some 1
    status := .ready
    heartbeatTicker := some 30000
    heartbeatInterval := 30000
    lastHeartbeatSent := 10
    lastHeartbeatReceived := 4 }

/-- Fixture: a freshly constructed gateway with no prior session. -/
def freshGateway : GatewayImpl :=
  New { sessionID := none, lastSequenceReceived := none, autoReconnect := true }

/-- Fixture: an open connection still in the handshake
(StatusWaitingForHello). -/
def handshakeGateway : GatewayImpl :=
  { sampleGateway with status := .waitingForHello }

/-- Fixture: a live gateway whose last heartbeat was sent at t=5000 and
whose last ack arrived at t=0 — the ack for the previous beat never
came. -/
def staleAckGateway : GatewayImpl :=
  { sampleGateway with lastHeartbeatSent := 5000, lastHeartbeatReceived := 0 }

end Disgo

namespace DisgoBot

/-- Fixture: a chunking manager with no pending requests. -/
def emptyManager : MemberChunkingManagerImpl :=
  { chunkingRequests := [] }

/-- Fixture: a chunk payload whose nonce matches no pending request of
the empty manager. -/
def strayChunk : GuildMembersChunk :=
  { guildID := 9, members := [2, 3], chunkCount := 2, nonce := "tok" }

end DisgoBot

namespace Disgo

/-- Helper: CloseWithCode always leaves the connection handle nil. -/
theorem CloseWithCode_conn_none (g : GatewayImpl) (code : Nat) :
    (CloseWithCode g code).conn = none := by
  unfold CloseWithCode
  cases hc : g.conn <;> simp [hc]
  split <;> rfl

/-- Helper: a successful Open of a disconnected gateway does not touch
the config (session id, sequence, auto-reconnect). -/
theorem Open_success_config (g : GatewayImpl) (c now : Nat) (h : g.conn = none) :
    (Open g (some c) now).1.config = g.config := by
  simp [Open, h]

/-- Helper: after Hello, Resume is sent whenever both the session id and
the last sequence are stored. -/
theorem onHello_resume_of_session (g : GatewayImpl) (interval now : Nat)
    (sid : String) (seq : Nat)
    (h1 : g.config.sessionID = some sid)
    (h2 : g.config.lastSequenceReceived = some seq) :
    (onHello g interval now).2 = .resumeFrame := by
  simp [onHello, identify, resume, h1, h2]

/-- C1: on Hello in WaitingForHello the machine sends Identify when the
stored sequence or session id is absent and Resume when both are
present; hence any close that preserves both (followed by a successful
re-Open and the next Hello) yields a Resume frame, never Identify. -/
theorem hello_resume_iff_prior_session (g : GatewayImpl)
    (interval now code c' now' i2 n2 : Nat) (sid : String) (seq : Nat) :
    ((g.config.lastSequenceReceived = none ∨ g.config.sessionID = none) →
        (onHello g interval now).2 = .identifyFrame)
    ∧ (g.config.sessionID = some sid → g.config.lastSequenceReceived = some seq →
        (onHello g interval now).2 = .resumeFrame)
    ∧ ((CloseWithCode g code).config.sessionID = some sid →
        (CloseWithCode g code).config.lastSequenceReceived = some seq →
        (onHello (Open (CloseWithCode g code) (some c') now').1 i2 n2).2 =
          .resumeFrame) := by
  refine ⟨?_, ?_, ?_⟩
  · intro h
    rcases h with h | h <;> simp [onHello, identify, resume, h]
  · intro h1 h2
    exact onHello_resume_of_session g interval now sid seq h1 h2
  · intro h1 h2
    have hconn := CloseWithCode_conn_none g code
    have hcfg := Open_success_config (CloseWithCode g code) c' now' hconn
    exact onHello_resume_of_session _ i2 n2 sid seq
      (by rw [hcfg]; exact h1) (by rw [hcfg]; exact h2)

/-- Witness for C1 at concrete states: a fresh gateway identifies; after
a non-graceful close (code 4006) of a gateway holding token "s" and
sequence 42, the reconnect's Hello yields Resume. -/
theorem hello_resume_iff_prior_session_witness :
    (onHello freshGateway 30000 5).2 = .identifyFrame
    ∧ (onHello (Open (CloseWithCode sampleGateway 4006) (some 2) 6).1 30000 7).2 =
        .resumeFrame :=
  ⟨(hello_resume_iff_prior_session freshGateway 30000 5 4006 2 6 30000 7 "s" 42).1
      (Or.inl rfl),
   (hello_resume_iff_prior_session sampleGateway 30000 5 4006 2 6 30000 7 "s" 42).2.2
      (by decide) (by decide)⟩

/-- C2 counterexample: a live session whose previous heartbeat was never
acked (lastHeartbeatReceived < lastHeartbeatSent) reaches the next
scheduled beat; with the send succeeding, sendHeartbeat performs no
forced close-and-reconnect (flag false), keeps the connection open and
simply continues heartbeating — refuting the claim that a missed ack
triggers a reconnect cycle. -/
theorem missed_ack_no_reconnect :
    staleAckGateway.lastHeartbeatReceived < staleAckGateway.lastHeartbeatSent
    ∧ (sendHeartbeat staleAckGateway true 6000).2 = false
    ∧ (sendHeartbeat staleAckGateway true 6000).1.conn = some 1
    ∧ (sendHeartbeat staleAckGateway true 6000).1.lastHeartbeatSent = 6000 := by
  decide

/-- C2 amended: the heartbeat tick forces the close-and-reconnect cycle
exactly when the send fails with an error other than not-connected
(here: the rate-limiter failure); the decision is independent of the
heartbeat-ack state, so a missed ack alone never triggers it. -/
theorem heartbeat_reconnect_iff_send_failure (g : GatewayImpl) (rl : Bool) (now : Nat) :
    ((sendHeartbeat g rl now).2 = true ↔ (g.conn ≠ none ∧ rl = false))
    ∧ (∀ ack : Nat,
        (sendHeartbeat { g with lastHeartbeatReceived := ack } rl now).2 =
          (sendHeartbeat g rl now).2) := by
  constructor
  · cases hc : g.conn <;> cases rl <;> simp [sendHeartbeat, send, hc]
  · intro ack
    cases hc : g.conn <;> cases rl <;> simp [sendHeartbeat, send, hc]

/-- C3 counterexample: Open on the fresh (Unconnected) gateway with a
failing dial returns the dial error, but the status afterwards is
Connecting, not Unconnected — the transition is not rolled back. -/
theorem open_failure_not_unconnected :
    freshGateway.status = .unconnected
    ∧ (Open freshGateway none 0).2 = some .errDial
    ∧ (Open freshGateway none 0).1.status ≠ Status.unconnected
    ∧ (Open freshGateway none 0).1.status = .connecting := by
  decide

/-- C3 amended: Open sets the status to Connecting; when the dial fails
it returns the error and the status remains Connecting (CloseWithCode,
invoked on the failure path, never writes the status field). -/
theorem open_failure_keeps_connecting (g : GatewayImpl) (now : Nat)
    (h : g.conn = none) :
    (Open g none now).2 = some .errDial
    ∧ (Open g none now).1.status = .connecting := by
  simp [Open, Close, CloseWithCode, h]

/-- Witness for C3 amended at the fresh gateway. -/
theorem open_failure_keeps_connecting_witness :
    (Open freshGateway none 0).2 = some .errDial
    ∧ (Open freshGateway none 0).1.status = .connecting :=
  open_failure_keeps_connecting freshGateway 0 rfl

/-- C4 counterexample: with an open connection still in the handshake
(StatusWaitingForHello, not Ready), send writes the frame instead of
returning the not-connected error — the status is never consulted. -/
theorem send_writes_during_handshake :
    handshakeGateway.status ≠ Status.ready
    ∧ send handshakeGateway true = .written
    ∧ send handshakeGateway true ≠ SendResult.errShardNotConnected := by
  decide

/-- C4 amended: send returns ErrShardNotConnected exactly when the
connection handle is nil; once a connection exists, frames (application
commands and protocol-internal alike) are written in every status,
subject only to the rate limiter. -/
theorem send_not_connected_iff_conn_nil (g : GatewayImpl) (rl : Bool) :
    (send g rl = .errShardNotConnected ↔ g.conn = none) := by
  cases hc : g.conn <;> cases rl <;> simp [send, hc]

end Disgo

namespace DisgoCore

/-- C5 counterexample: the state reached from the fresh cache by
SetUnready(0) then SetUnavailable(0) has guild 0 simultaneously in the
pending (unready) set and in the unavailable set — the claimed invariant
fails on a reachable state. -/
theorem pending_and_unavailable_overlap :
    0 ∈ (runGuildOps [.setUnready 0, .setUnavailable 0]).unreadyGuilds
    ∧ 0 ∈ (runGuildOps [.setUnready 0, .setUnavailable 0]).unavailableGuilds := by
  decide

/-- C5 amended: each availability operation modifies at most one of the
two sets — the ready/unready operations leave the unavailable set
unchanged and the available/unavailable operations leave the unready set
unchanged; in particular no operation removes an id from the other set,
so the two sets can overlap. -/
theorem guild_op_modifies_one_set (c : GuildCacheImpl) (op : GuildOp) :
    (applyGuildOp c op).unavailableGuilds = c.unavailableGuilds
    ∨ (applyGuildOp c op).unreadyGuilds = c.unreadyGuilds := by
  cases op
  case setReady id => exact Or.inl rfl
  case setUnready id => exact Or.inl rfl
  case setUnavailable id => exact Or.inr rfl
  case setAvailable id => exact Or.inr rfl

/-- C6 counterexample: from the fresh cache, SetUnavailable(0),
SetUnready(0), SetReady(0) leaves 0 in the unavailable set (the claim
says it is absent from both sets). -/
theorem unavailable_persists_after_ready :
    0 ∉ (SetReady (SetUnready (SetUnavailable NewGuildCache 0) 0) 0).unreadyGuilds
    ∧ 0 ∈ (SetReady (SetUnready (SetUnavailable NewGuildCache 0) 0) 0).unavailableGuilds := by
  decide

/-- C6 amended: from any starting state, SetUnavailable(p) then
SetUnready(p) then SetReady(p) leaves p absent from the pending
(unready) set but still present in the unavailable set — only
SetAvailable removes it from the latter. -/
theorem unavailable_unready_ready_effect (c : GuildCacheImpl) (id : Nat) :
    id ∉ (SetReady (SetUnready (SetUnavailable c id) id) id).unreadyGuilds
    ∧ id ∈ (SetReady (SetUnready (SetUnavailable c id) id) id).unavailableGuilds :=
  ⟨Finset.not_mem_erase id _, Finset.mem_insert_self id _⟩

end DisgoCore

namespace Disgo

/-- C7: closing an open connection clears the stored session id and last
sequence exactly when the close code is graceful (CloseNormalClosure
1000 or CloseGoingAway 1001); for every other code both fields keep
their prior values, so a later resume stays possible. -/
theorem close_clears_resume_iff_graceful (g : GatewayImpl) (code c : Nat)
    (h : g.conn = some c) :
    ((code = closeNormalClosure ∨ code = closeGoingAway) →
        (CloseWithCode g code).config.sessionID = none
        ∧ (CloseWithCode g code).config.lastSequenceReceived = none)
    ∧ (¬(code = closeNormalClosure ∨ code = closeGoingAway) →
        (CloseWithCode g code).config.sessionID = g.config.sessionID
        ∧ (CloseWithCode g code).config.lastSequenceReceived =
            g.config.lastSequenceReceived) := by
  constructor <;> intro hcode <;>
    simp [CloseWithCode, h, if_pos, if_neg, hcode]

/-- Witness for C7: closing the live fixture with code 1000 clears the
session id; closing it with code 4000 keeps token "s" and sequence
42. -/
theorem close_clears_resume_iff_graceful_witness :
    (CloseWithCode sampleGateway 1000).config.sessionID = none
    ∧ (CloseWithCode sampleGateway 4000).config.sessionID = some "s" :=
  ⟨((close_clears_resume_iff_graceful sampleGateway 1000 1 rfl).1
      (Or.inl rfl)).1,
   (((close_clears_resume_iff_graceful sampleGateway 4000 1 rfl).2
      (by decide)).1).trans rfl⟩

/-- C8 counterexample: for a negotiated interval of 30000 ms the delay
before the first heartbeat equals the full interval and is not strictly
less than it; the delay is a function of the interval alone (there is no
random draw in the code), so it is never randomized within the
interval. -/
theorem first_heartbeat_not_randomized :
    firstHeartbeatDelay 30000 = 30000
    ∧ ¬ firstHeartbeatDelay 30000 < 30000 := by
  decide

/-- C8 amended: the heartbeat loop uses a plain ticker, so the first
beat fires exactly one full negotiated interval after the loop starts
and every later beat one interval after the previous; no jitter is
applied. -/
theorem first_heartbeat_full_interval (start interval : Nat) :
    heartbeatTickTime start interval 0 = start + interval
    ∧ firstHeartbeatDelay interval = interval := by
  constructor
  · simp [heartbeatTickTime]
  · simp [firstHeartbeatDelay, heartbeatTickTime]

/-- C10: Open on a gateway that already has a connection returns
ErrGatewayAlreadyConnected and leaves the whole state — connection
handle, status, session id and sequence included — exactly as it was. -/
theorem open_already_connected_unchanged (g : GatewayImpl) (c : Nat)
    (dialResult : Option Nat) (now : Nat) (h : g.conn = some c) :
    Open g dialResult now = (g, some .errGatewayAlreadyConnected) := by
  simp [Open, h]

/-- Witness for C10: re-opening the connected fixture changes nothing
and reports the already-connected error. -/
theorem open_already_connected_unchanged_witness :
    Open sampleGateway (some 2) 7 = (sampleGateway, some .errGatewayAlreadyConnected) :=
  open_already_connected_unchanged sampleGateway 1 (some 2) 7 rfl

end Disgo

namespace DisgoBot

/-- C9: a chunk payload whose nonce is not in the pending-request map —
which covers tokens retired by their final chunk and tokens removed by
cancellation, since both paths delete the map entry — is dropped: no
error, no cache write, no delivery, and the manager state is returned
unchanged. -/
theorem handle_chunk_unknown_nonce_noop (m : MemberChunkingManagerImpl)
    (payload : GuildMembersChunk)
    (h : lookupRequest m payload.nonce = none) :
    HandleChunk m payload = (m, [], []) := by
  simp [HandleChunk, h]

/-- Witness for C9: a stray chunk against the empty manager is a no-op
with no deliveries. -/
theorem handle_chunk_unknown_nonce_noop_witness :
    HandleChunk emptyManager strayChunk = (emptyManager, [], []) :=
  handle_chunk_unknown_nonce_noop emptyManager strayChunk rfl

end DisgoBot
